import Mathlib

/-!
Verification development for the watermark generator in `src/watermark.py`.

The two core functions, `create_single_text_watermark` (glyph-block renderer,
lines 205-245) and `create_photo_text_watermark` (diagonal tiler, lines
248-332), are embedded shallowly below.  Modeling conventions:

* Python float arithmetic is modeled by exact rational arithmetic (`ℚ`);
  `math.sqrt`, `math.cos` and `math.sin` are transcendental, so the model is
  the exact-real semantics of the same formulas.
* Python `int(x)` truncates toward zero; this is `truncQ` below.  All the
  truncations that feed divisions are of nonnegative quantities, where
  truncation coincides with the floor.
* `int(math.sqrt (W*W + H*H) / s)` for an integer `s ≥ 1` equals
  `⌊⌊√(W²+H²)⌋ / s⌋ = Nat.sqrt (W²+H²) / s`, and
  `int(1.5 * math.sqrt (W*W + H*H) / s) = Nat.sqrt (9*(W²+H²)) / (2*s)`
  because `1.5·√n = √(9n)/2`; the lemmas `floor_sqrt_div_nat` and
  `floor_threeHalves_sqrt_div_nat` below justify these two modeling steps.
* External collaborators are oracle parameters: `parse` stands for
  `PIL.ImageColor.getcolor` (raising `ValueError` becomes `none`); the pair
  `(text_width, text_height)` stands for the font-metrics bounding box the
  code measures with `textbbox`; `rotDims` stands for the size of
  `single_text.rotate(angle, expand=True)`; `cosA`/`sinA` are the exact
  values of `cos angle_rad`/`sin angle_rad` for the requested angle, and the
  code's `cos(angle_rad + π/2)`/`sin(angle_rad + π/2)` are `-sinA`/`cosA`
  by the shift identities.
* A raster produced by the tiler is determined by the glyph tile, the
  rotated-tile dimensions, the ordered list of paste positions and the crop
  box; `PatternOut` records exactly these data, so equality of `PatternOut`
  values is equality of output rasters.
* The only runtime failure reachable in the tiler arithmetic itself is the
  `ZeroDivisionError` of line 302/315 when the computed spacing is `0`; the
  model returns `Except.error PyErr.zeroDivision` at that point.  The Python
  source performs no explicit validation and defines no exception classes.
-/

namespace Watermark

/-- RGBA color quadruple, as returned by `PIL.ImageColor.getcolor(c, "RGBA")`. -/
structure RGBA where
  r : ℕ
  g : ℕ
  b : ℕ
  a : ℕ
  deriving DecidableEq

/-- Fallback fill color used at line 226: opaque white. -/
def fallbackFill : RGBA := ⟨255, 255, 255, 255⟩

/-- Fallback outline color used at line 232: opaque black. -/
def fallbackOutline : RGBA := ⟨0, 0, 0, 255⟩

/-- Warnings printed by `create_single_text_watermark` (lines 225 and 231). -/
inductive Warn where
  | invalidFontColor (given : String)
  | invalidOutlineColor (given : String)
  deriving DecidableEq

/-- One `draw.text((x, y), text, font=font, fill=color)` call. -/
structure DrawOp where
  x : ℤ
  y : ℤ
  txt : String
  color : RGBA
  deriving DecidableEq

/-- The glyph tile: raster dimensions plus the ordered list of text draws
performed on it.  The pixel content of the tile is determined by these data
(the raster starts fully transparent, line 218). -/
structure Tile where
  width : ℕ
  height : ℕ
  ops : List DrawOp
  deriving DecidableEq

/-- Python `int()` on a rational: truncation toward zero. -/
def truncQ (q : ℚ) : ℤ := if 0 ≤ q then ⌊q⌋ else -⌊-q⌋

/-- Python `range(a, b)` over integers, in order; empty when `b ≤ a`. -/
def pyRange (a b : ℤ) : List ℤ :=
  (List.range (b - a).toNat).map (fun (k : ℕ) => a + (k : ℤ))

/-- Python `range(-w, w + 1)`: the offsets `-w, …, w` used by the outline pass. -/
def offsetRange (w : ℕ) : List ℤ :=
  (List.range (2 * w + 1)).map (fun (k : ℕ) => (k : ℤ) - (w : ℤ))

/-- The offset pairs visited by the nested loops of lines 236-240, in loop
order, with the `(0, 0)` pair skipped by the `continue` of lines 238-239. -/
def outlineOffsets (w : ℕ) : List (ℤ × ℤ) :=
  ((offsetRange w).flatMap (fun ox => (offsetRange w).map (fun oy => (ox, oy)))).filter
    (fun p => p ≠ ((0 : ℤ), (0 : ℤ)))

/-- Embedding of `create_single_text_watermark` (lines 205-245).  `parse` is
the `ImageColor.getcolor` oracle; `text_width`/`text_height` are the measured
bounding-box dimensions of `text` (lines 212-214).  Returns the tile together
with the list of warnings printed.  Line 217: `padding = outline_width * 2`;
line 218: the raster is `(text_width + padding * 2, text_height + padding * 2)`;
lines 222-232: color resolution with fallbacks; lines 235-240: outline pass
(skipped when `outline_width` is `0`); line 243: the fill draw, last. -/
def create_single_text_watermark (parse : String → Option RGBA) (text : String)
    (text_width text_height : ℕ) (font_color outline_color : String)
    (outline_width : ℕ) : Tile × List Warn :=
  let padding : ℕ := outline_width * 2
  let font_color_rgb := (parse font_color).getD fallbackFill
  let outline_color_rgb := (parse outline_color).getD fallbackOutline
  let warns : List Warn :=
    (if (parse font_color).isNone then [Warn.invalidFontColor font_color] else []) ++
      (if (parse outline_color).isNone then [Warn.invalidOutlineColor outline_color] else [])
  let outlineOps : List DrawOp :=
    if 0 < outline_width then
      (outlineOffsets outline_width).map
        (fun off => ⟨(padding : ℤ) + off.1, (padding : ℤ) + off.2, text, outline_color_rgb⟩)
    else []
  (⟨text_width + padding * 2, text_height + padding * 2,
    outlineOps ++ [⟨(padding : ℤ), (padding : ℤ), text, font_color_rgb⟩]⟩, warns)

/-- Lines 274-275: `spacing_factor = 1.0 - density`, then clamped by
`max(0.2, min(1.0, spacing_factor))`. -/
def spacing_factor (density : ℚ) : ℚ := max (1 / 5) (min 1 (1 - density))

/-- Line 279: `base_spacing = int(max(text_width, text_height) * 2.5 *
spacing_factor)` where the dimensions are those of the single tile; the value
being truncated is nonnegative, so `int()` is the floor. -/
def base_spacing (tw th : ℕ) (density : ℚ) : ℤ :=
  ⌊((max tw th : ℕ) : ℚ) * (5 / 2) * spacing_factor density⌋

/-- The one runtime error reachable in the tiler arithmetic: the
`ZeroDivisionError` raised by line 302 (and line 315) when `base_spacing`
is `0`.  The source defines no exception classes of its own and performs no
explicit `raise`. -/
inductive PyErr where
  | zeroDivision
  deriving DecidableEq

/-- The stamping loops of lines 309-324: for each line index `i` in
`range(-diagonal_count, diagonal_count)` the row origin is
`(-rotated_width + i*perp_dx, -rotated_height + i*perp_dy)` (lines 305-311),
and for each `j` in `range(text_count)` the position
`(line_start_x + j*dx, line_start_y + j*dy)` is pasted exactly when the
bounds check of lines 322-323 holds.  Returns the pasted positions in
execution order. -/
def stampList (pw ph rw rh D T : ℕ) (dx dy pdx pdy : ℤ) : List (ℤ × ℤ) :=
  (pyRange (-(D : ℤ)) (D : ℤ)).flatMap (fun i =>
    let line_start_x := -(rw : ℤ) + i * pdx
    let line_start_y := -(rh : ℤ) + i * pdy
    ((List.range T).map (fun (j : ℕ) =>
        (line_start_x + (j : ℤ) * dx, line_start_y + (j : ℤ) * dy))).filter
      (fun q => -(rw : ℤ) ≤ q.1 ∧ q.1 ≤ (pw : ℤ) ∧
        -(rh : ℤ) ≤ q.2 ∧ q.2 ≤ (ph : ℤ)))

/-- Everything that determines the raster returned by
`create_photo_text_watermark`: the glyph tile drawn, the rotated-tile
dimensions, the oversized pattern-canvas dimensions, the lattice vectors, the
ordered list of paste positions (line 324) and the crop box of lines 327-332.
`out_width`/`out_height` are the dimensions `right - left` / `bottom - top`
of the rectangle handed to `pattern.crop`, which is exactly the size of the
raster PIL returns. -/
structure PatternOut where
  single : Tile
  warns : List Warn
  base_spacing : ℤ
  pattern_width : ℕ
  pattern_height : ℕ
  rotated_width : ℕ
  rotated_height : ℕ
  dx : ℤ
  dy : ℤ
  perp_dx : ℤ
  perp_dy : ℤ
  stamps : List (ℤ × ℤ)
  crop_left : ℤ
  crop_top : ℤ
  out_width : ℤ
  out_height : ℤ
  deriving DecidableEq

/-- Embedding of `create_photo_text_watermark` (lines 248-332).  Oracles:
`parse` as above; `rotDims` gives the raster size of
`single_text.rotate(angle, expand=True, resample=BICUBIC)` (line 288);
`cosA`/`sinA` are the exact cosine and sine of the angle in radians, so the
perpendicular direction of lines 298-299 uses `-sinA` and `cosA`.
`text_width`/`text_height` are the measured text dimensions fed to
`create_single_text_watermark`.  Lines 273-279: spacing; lines 283-285:
oversized pattern canvas; lines 293-299: lattice vectors via `int()`
truncation; line 302: `diagonal_count` (ZeroDivisionError when the spacing is
zero — the model errors at exactly that point); lines 309-324: the stamping
loops with the bounds check of lines 322-323; lines 327-332: center crop. -/
def create_photo_text_watermark (parse : String → Option RGBA)
    (rotDims : ℕ → ℕ → ℕ × ℕ) (base_width base_height : ℕ) (text : String)
    (text_width text_height : ℕ) (font_color outline_color : String)
    (outline_width : ℕ) (cosA sinA : ℚ) (density : ℚ) :
    Except PyErr PatternOut :=
  let st := create_single_text_watermark parse text text_width text_height
    font_color outline_color outline_width
  let tw := st.1.width
  let th := st.1.height
  let spacing := base_spacing tw th density
  let pattern_width := base_width + 2 * tw
  let pattern_height := base_height + 2 * th
  let rot := rotDims tw th
  let dx := truncQ (cosA * (spacing : ℚ))
  let dy := truncQ (sinA * (spacing : ℚ))
  let perp_dx := truncQ (-sinA * (spacing : ℚ))
  let perp_dy := truncQ (cosA * (spacing : ℚ))
  if spacing = 0 then
    Except.error PyErr.zeroDivision
  else
    let sN := spacing.toNat
    let diagSq := base_width ^ 2 + base_height ^ 2
    let diagonal_count := (Nat.sqrt diagSq / sN) * 2
    let text_count := Nat.sqrt (9 * diagSq) / (2 * sN) + 1
    let stamps := stampList pattern_width pattern_height rot.1 rot.2
      diagonal_count text_count dx dy perp_dx perp_dy
    let crop_left := ((pattern_width : ℤ) - (base_width : ℤ)) / 2
    let crop_top := ((pattern_height : ℤ) - (base_height : ℤ)) / 2
    let crop_right := crop_left + (base_width : ℤ)
    let crop_bottom := crop_top + (base_height : ℤ)
    Except.ok
      { single := st.1
        warns := st.2
        base_spacing := spacing
        pattern_width := pattern_width
        pattern_height := pattern_height
        rotated_width := rot.1
        rotated_height := rot.2
        dx := dx
        dy := dy
        perp_dx := perp_dx
        perp_dy := perp_dy
        stamps := stamps
        crop_left := crop_left
        crop_top := crop_top
        out_width := crop_right - crop_left
        out_height := crop_bottom - crop_top }

/-- True exactly when the run completed without the division error. -/
def isOkResult (r : Except PyErr PatternOut) : Bool :=
  match r with
  | Except.ok _ => true
  | Except.error _ => false

/-- Number of tiles actually stamped (pastes executed at line 324); `0` for a
failed run. -/
def stampTally (r : Except PyErr PatternOut) : ℕ :=
  match r with
  | Except.ok o => o.stamps.length
  | Except.error _ => 0

/-- The crop step of lines 327-332 produced exactly the requested dimensions
and its window sits inside the oversized working canvas. -/
def cropSpec (W H : ℕ) (r : Except PyErr PatternOut) : Prop :=
  match r with
  | Except.ok o =>
      o.out_width = W ∧ o.out_height = H ∧
      o.crop_left = ((o.pattern_width : ℤ) - W) / 2 ∧
      o.crop_top = ((o.pattern_height : ℤ) - H) / 2 ∧
      0 ≤ o.crop_left ∧ o.crop_left + W ≤ (o.pattern_width : ℤ) ∧
      0 ≤ o.crop_top ∧ o.crop_top + H ≤ (o.pattern_height : ℤ) ∧
      o.pattern_width = W + 2 * o.single.width ∧
      o.pattern_height = H + 2 * o.single.height
  | Except.error _ => False

/-! Evaluation helpers: rational floors, Python truncation and `Nat.sqrt`
at concrete arguments, plus bounds on the clamped spacing factor. -/

lemma floorQ_eq {q : ℚ} {n : ℤ} (h1 : (n : ℚ) ≤ q) (h2 : q < n + 1) : ⌊q⌋ = n :=
  Int.floor_eq_iff.mpr ⟨h1, h2⟩

lemma truncQ_of_nonneg {q : ℚ} {n : ℤ} (h0 : 0 ≤ q) (h1 : (n : ℚ) ≤ q) (h2 : q < n + 1) :
    truncQ q = n := by
  rw [truncQ, if_pos h0]
  exact floorQ_eq h1 h2

lemma truncQ_of_neg {q : ℚ} {n : ℤ} (h0 : ¬0 ≤ q) (h1 : (n : ℚ) ≤ -q) (h2 : -q < n + 1) :
    truncQ q = -n := by
  rw [truncQ, if_neg h0, floorQ_eq h1 h2]

lemma natSqrt_eq {m n : ℕ} (h1 : m * m ≤ n) (h2 : n < (m + 1) * (m + 1)) :
    Nat.sqrt n = m :=
  Nat.le_antisymm (Nat.le_of_lt_succ (Nat.sqrt_lt.mpr h2)) (Nat.le_sqrt.mpr h1)

/-- Justification of the `Nat.sqrt` modeling step: the natural-number square
root is the floor of the exact real square root. -/
lemma natFloor_real_sqrt (n : ℕ) : ⌊Real.sqrt n⌋₊ = Nat.sqrt n := by
  have hnn : (0 : ℝ) ≤ Real.sqrt n := Real.sqrt_nonneg _
  rw [Nat.floor_eq_iff (by positivity)]
  constructor
  · rw [Real.le_sqrt (by positivity) (by positivity)]
    exact_mod_cast Nat.sqrt_le' n
  · rw [Real.sqrt_lt' (by positivity)]
    exact_mod_cast Nat.lt_succ_sqrt' n

/-- Justification of the modeling of line 302: truncating
`sqrt(W² + H²) / spacing` equals `Nat.sqrt (W² + H²) / spacing` in natural
division, for a positive integer spacing. -/
lemma floor_sqrt_div_nat (n s : ℕ) : ⌊Real.sqrt n / (s : ℝ)⌋₊ = Nat.sqrt n / s := by
  rw [Nat.floor_div_nat, natFloor_real_sqrt]

/-- Justification of the modeling of lines 314-315: truncating
`1.5 · sqrt(W² + H²) / spacing` equals `Nat.sqrt (9·(W² + H²)) / (2·spacing)`
in natural division, because `1.5·√n = √(9n)/2`. -/
lemma floor_threeHalves_sqrt_div_nat (n s : ℕ) :
    ⌊3 / 2 * Real.sqrt n / (s : ℝ)⌋₊ = Nat.sqrt (9 * n) / (2 * s) := by
  have h9 : ((9 * n : ℕ) : ℝ) = (3 : ℝ) ^ 2 * (n : ℝ) := by push_cast; ring
  have hsq : Real.sqrt ((9 * n : ℕ) : ℝ) = 3 * Real.sqrt n := by
    rw [h9, Real.sqrt_mul (by positivity), Real.sqrt_sq (by norm_num)]
  have harg : 3 / 2 * Real.sqrt n / (s : ℝ) = Real.sqrt ((9 * n : ℕ) : ℝ) / ((2 * s : ℕ) : ℝ) := by
    rw [hsq]
    rcases eq_or_ne (s : ℝ) 0 with hs | hs
    · rw [hs, div_zero]
      have h2s : ((2 * s : ℕ) : ℝ) = 0 := by
        push_cast
        rw [hs, mul_zero]
      rw [h2s, div_zero]
    · have h2s : ((2 * s : ℕ) : ℝ) = 2 * (s : ℝ) := by push_cast; ring
      rw [h2s]
      field_simp
  rw [harg, Nat.floor_div_nat, natFloor_real_sqrt]

lemma spacing_factor_lb (d : ℚ) : 1 / 5 ≤ spacing_factor d := le_max_left _ _

lemma spacing_factor_ub (d : ℚ) : spacing_factor d ≤ 1 :=
  max_le (by norm_num) (min_le_left _ _)

lemma spacing_factor_anti {d₁ d₂ : ℚ} (h : d₁ ≤ d₂) :
    spacing_factor d₂ ≤ spacing_factor d₁ := by
  unfold spacing_factor
  have h' : (1 : ℚ) - d₂ ≤ 1 - d₁ := by linarith
  exact max_le_max le_rfl (min_le_min le_rfl h')

/-- For every density at or above `0.8` — including densities above `1` —
the clamp of line 275 collapses the spacing factor to exactly `0.2`. -/
lemma spacing_factor_saturated {d : ℚ} (h : 4 / 5 ≤ d) : spacing_factor d = 1 / 5 := by
  unfold spacing_factor
  exact max_eq_left (le_trans (min_le_right _ _) (by linarith))

lemma base_spacing_nonneg (tw th : ℕ) (d : ℚ) : 0 ≤ base_spacing tw th d := by
  unfold base_spacing
  apply Int.floor_nonneg.mpr
  have hf : (0 : ℚ) ≤ spacing_factor d := le_trans (by norm_num) (spacing_factor_lb d)
  have hm : (0 : ℚ) ≤ ((max tw th : ℕ) : ℚ) * (5 / 2) := by positivity
  exact mul_nonneg hm hf

lemma base_spacing_ge_one (tw th : ℕ) (d : ℚ) (h : 2 ≤ max tw th) :
    1 ≤ base_spacing tw th d := by
  unfold base_spacing
  rw [Int.le_floor]
  have hf := spacing_factor_lb d
  have hm : (2 : ℚ) ≤ ((max tw th : ℕ) : ℚ) := by exact_mod_cast h
  have h1 : ((1 : ℤ) : ℚ) = 1 := by norm_num
  rw [h1]
  nlinarith [hf, hm]

lemma base_spacing_anti (tw th : ℕ) {d₁ d₂ : ℚ} (h : d₁ ≤ d₂) :
    base_spacing tw th d₂ ≤ base_spacing tw th d₁ := by
  unfold base_spacing
  apply Int.floor_le_floor
  exact mul_le_mul_of_nonneg_left (spacing_factor_anti h) (by positivity)

lemma single_width (parse : String → Option RGBA) (text : String) (tW tH : ℕ)
    (fc oc : String) (ow : ℕ) :
    (create_single_text_watermark parse text tW tH fc oc ow).1.width = tW + ow * 2 * 2 := rfl

lemma single_height (parse : String → Option RGBA) (text : String) (tW tH : ℕ)
    (fc oc : String) (ow : ℕ) :
    (create_single_text_watermark parse text tW tH fc oc ow).1.height = tH + ow * 2 * 2 := rfl

/-- Case analysis of `create_photo_text_watermark`, fully expanded: either the
computed spacing is zero and the run fails with the division error of line
302, or the run returns the complete pattern description. -/
lemma create_photo_cases (parse : String → Option RGBA) (rot : ℕ → ℕ → ℕ × ℕ)
    (W H : ℕ) (text : String) (tW tH : ℕ) (fc oc : String) (ow : ℕ)
    (c s d : ℚ) :
    create_photo_text_watermark parse rot W H text tW tH fc oc ow c s d =
      if base_spacing (tW + ow * 2 * 2) (tH + ow * 2 * 2) d = 0 then
        Except.error PyErr.zeroDivision
      else
        Except.ok
          { single := (create_single_text_watermark parse text tW tH fc oc ow).1
            warns := (create_single_text_watermark parse text tW tH fc oc ow).2
            base_spacing := base_spacing (tW + ow * 2 * 2) (tH + ow * 2 * 2) d
            pattern_width := W + 2 * (tW + ow * 2 * 2)
            pattern_height := H + 2 * (tH + ow * 2 * 2)
            rotated_width := (rot (tW + ow * 2 * 2) (tH + ow * 2 * 2)).1
            rotated_height := (rot (tW + ow * 2 * 2) (tH + ow * 2 * 2)).2
            dx := truncQ (c * ((base_spacing (tW + ow * 2 * 2) (tH + ow * 2 * 2) d : ℤ) : ℚ))
            dy := truncQ (s * ((base_spacing (tW + ow * 2 * 2) (tH + ow * 2 * 2) d : ℤ) : ℚ))
            perp_dx :=
              truncQ (-s * ((base_spacing (tW + ow * 2 * 2) (tH + ow * 2 * 2) d : ℤ) : ℚ))
            perp_dy :=
              truncQ (c * ((base_spacing (tW + ow * 2 * 2) (tH + ow * 2 * 2) d : ℤ) : ℚ))
            stamps :=
              stampList (W + 2 * (tW + ow * 2 * 2)) (H + 2 * (tH + ow * 2 * 2))
                (rot (tW + ow * 2 * 2) (tH + ow * 2 * 2)).1
                (rot (tW + ow * 2 * 2) (tH + ow * 2 * 2)).2
                (Nat.sqrt (W ^ 2 + H ^ 2) /
                    (base_spacing (tW + ow * 2 * 2) (tH + ow * 2 * 2) d).toNat * 2)
                (Nat.sqrt (9 * (W ^ 2 + H ^ 2)) /
                    (2 * (base_spacing (tW + ow * 2 * 2) (tH + ow * 2 * 2) d).toNat) + 1)
                (truncQ (c * ((base_spacing (tW + ow * 2 * 2) (tH + ow * 2 * 2) d : ℤ) : ℚ)))
                (truncQ (s * ((base_spacing (tW + ow * 2 * 2) (tH + ow * 2 * 2) d : ℤ) : ℚ)))
                (truncQ (-s * ((base_spacing (tW + ow * 2 * 2) (tH + ow * 2 * 2) d : ℤ) : ℚ)))
                (truncQ (c * ((base_spacing (tW + ow * 2 * 2) (tH + ow * 2 * 2) d : ℤ) : ℚ)))
            crop_left := (((W + 2 * (tW + ow * 2 * 2) : ℕ) : ℤ) - (W : ℤ)) / 2
            crop_top := (((H + 2 * (tH + ow * 2 * 2) : ℕ) : ℤ) - (H : ℤ)) / 2
            out_width :=
              (((W + 2 * (tW + ow * 2 * 2) : ℕ) : ℤ) - (W : ℤ)) / 2 + (W : ℤ) -
                (((W + 2 * (tW + ow * 2 * 2) : ℕ) : ℤ) - (W : ℤ)) / 2
            out_height :=
              (((H + 2 * (tH + ow * 2 * 2) : ℕ) : ℤ) - (H : ℤ)) / 2 + (H : ℤ) -
                (((H + 2 * (tH + ow * 2 * 2) : ℕ) : ℤ) - (H : ℤ)) / 2 } := rfl

lemma isOkResult_iff (parse : String → Option RGBA) (rot : ℕ → ℕ → ℕ × ℕ)
    (W H : ℕ) (text : String) (tW tH : ℕ) (fc oc : String) (ow : ℕ)
    (c s d : ℚ) :
    isOkResult (create_photo_text_watermark parse rot W H text tW tH fc oc ow c s d) = true ↔
      base_spacing (tW + ow * 2 * 2) (tH + ow * 2 * 2) d ≠ 0 := by
  rw [create_photo_cases]
  by_cases h : base_spacing (tW + ow * 2 * 2) (tH + ow * 2 * 2) d = 0
  · simp [h, isOkResult]
  · simp [h, isOkResult]

lemma error_iff (parse : String → Option RGBA) (rot : ℕ → ℕ → ℕ × ℕ)
    (W H : ℕ) (text : String) (tW tH : ℕ) (fc oc : String) (ow : ℕ)
    (c s d : ℚ) :
    create_photo_text_watermark parse rot W H text tW tH fc oc ow c s d =
        Except.error PyErr.zeroDivision ↔
      base_spacing (tW + ow * 2 * 2) (tH + ow * 2 * 2) d = 0 := by
  rw [create_photo_cases]
  by_cases h : base_spacing (tW + ow * 2 * 2) (tH + ow * 2 * 2) d = 0
  · simp [h]
  · simp [h]

/-- Claim C1 (confirmed): for every canvas size `(W, H)` with `W > 0`, `H > 0`
and every input on which `create_photo_text_watermark` returns normally, the
output raster has pixel dimensions exactly `(W, H)`: the working canvas is
`(W + 2·tile_width, H + 2·tile_height)`, the crop window starts at
`left = (working_width - W) // 2`, `top = (working_height - H) // 2`, lies
entirely inside the working canvas, and has exactly the target dimensions. -/
theorem c1_crop_yields_exact_dims (parse : String → Option RGBA)
    (rot : ℕ → ℕ → ℕ × ℕ) (W H : ℕ) (text : String) (tW tH : ℕ)
    (fc oc : String) (ow : ℕ) (c s d : ℚ) (_hW : 0 < W) (_hH : 0 < H)
    (hok : isOkResult
      (create_photo_text_watermark parse rot W H text tW tH fc oc ow c s d) = true) :
    cropSpec W H (create_photo_text_watermark parse rot W H text tW tH fc oc ow c s d) := by
  have hne := (isOkResult_iff parse rot W H text tW tH fc oc ow c s d).mp hok
  rw [create_photo_cases, if_neg hne]
  simp only [cropSpec, single_width, single_height]
  push_cast
  simp only [and_true, true_and]
  omega

/-- Witness for C1 at a concrete input: canvas 8×6, tile text 5×3, no
outline, angle 0, density 1/2. -/
theorem c1_crop_yields_exact_dims_witness :
    0 < 8 ∧ 0 < 6 ∧
      isOkResult (create_photo_text_watermark (fun _ => none) (fun a b => (a, b)) 8 6
        ("S") 5 3 ("#fff") ("#000") 0 1 0 (1 / 2)) = true ∧
      cropSpec 8 6 (create_photo_text_watermark (fun _ => none) (fun a b => (a, b)) 8 6
        ("S") 5 3 ("#fff") ("#000") 0 1 0 (1 / 2)) := by
  have hok : isOkResult (create_photo_text_watermark (fun _ => none) (fun a b => (a, b)) 8 6
      ("S") 5 3 ("#fff") ("#000") 0 1 0 (1 / 2)) = true := by
    rw [isOkResult_iff]
    have h := base_spacing_ge_one (5 + 0 * 2 * 2) (3 + 0 * 2 * 2) (1 / 2) (by omega)
    omega
  exact ⟨by omega, by omega, hok,
    c1_crop_yields_exact_dims (fun _ => none) (fun a b => (a, b)) 8 6 ("S") 5 3
      ("#fff") ("#000") 0 1 0 (1 / 2) (by omega) (by omega) hok⟩

/-- Claim C2 (corrected) — counterexample: with empty text (measured text box
`0×0`, per the spec the zero-area case) and the default outline width `1`, the
run completes normally and returns a raster: no `EmptyWatermarkError` is
raised (no such exception exists in the source), contradicting the claim that
every empty-text input fails fast with `EmptyWatermarkError` and produces no
raster. -/
theorem c2_counterexample :
    isOkResult (create_photo_text_watermark (fun _ => none) (fun a b => (a, b)) 8 6
      ("") 0 0 ("#fff") ("#000") 1 1 0 (1 / 2)) = true := by
  rw [isOkResult_iff]
  have h := base_spacing_ge_one (0 + 1 * 2 * 2) (0 + 1 * 2 * 2) (1 / 2) (by omega)
  omega

/-- Claim C2 (corrected) — amended: empty text does not raise any dedicated
error.  With `outline_width = 0` the glyph tile is `0×0`, the computed spacing
is `0`, and the run dies with the unhandled `ZeroDivisionError` of line 302
(after the tile and spacing work, not fail-fast, and not an
`EmptyWatermarkError`); with `outline_width ≥ 1` the padded tile has positive
area and the run completes normally, returning a fully transparent raster. -/
theorem c2_empty_text_behavior (parse : String → Option RGBA)
    (rot : ℕ → ℕ → ℕ × ℕ) (W H : ℕ) (fc oc : String) (c s d : ℚ) :
    (create_photo_text_watermark parse rot W H ("") 0 0 fc oc 0 c s d =
        Except.error PyErr.zeroDivision) ∧
      ∀ ow : ℕ, 1 ≤ ow →
        isOkResult (create_photo_text_watermark parse rot W H ("") 0 0 fc oc ow c s d) =
          true := by
  constructor
  · rw [error_iff]
    show base_spacing 0 0 d = 0
    rw [base_spacing]
    norm_num
  · intro ow how
    rw [isOkResult_iff]
    have h := base_spacing_ge_one (0 + ow * 2 * 2) (0 + ow * 2 * 2) d (by omega)
    omega

/-- Witness for the amended C2 at a concrete input: canvas 8×6, angle 0,
density 1/2, outline widths 0 and 1. -/
theorem c2_empty_text_behavior_witness :
    (create_photo_text_watermark (fun _ => none) (fun a b => (a, b)) 8 6 ("") 0 0
        ("#fff") ("#000") 0 1 0 (1 / 2) = Except.error PyErr.zeroDivision) ∧
      isOkResult (create_photo_text_watermark (fun _ => none) (fun a b => (a, b)) 8 6
        ("") 0 0 ("#fff") ("#000") 1 1 0 (1 / 2)) = true := by
  have h := c2_empty_text_behavior (fun _ => none) (fun a b => (a, b)) 8 6
    ("#fff") ("#000") 1 0 (1 / 2)
  exact ⟨h.1, h.2 1 (by omega)⟩

/-- Claim C3 (corrected) — counterexample: for the degenerate `1×1` glyph tile
and density `0.9` (inside `(0, 1]`), the computed spacing is
`int(1 · 2.5 · 0.2) = 0`, not `≥ 1`; the subsequent division of line 302 then
raises `ZeroDivisionError`.  The code never rounds the spacing up to `1`. -/
theorem c3_counterexample :
    base_spacing 1 1 (9 / 10) = 0 ∧ (0 : ℚ) < 9 / 10 ∧ (9 / 10 : ℚ) ≤ 1 ∧
      create_photo_text_watermark (fun _ => none) (fun a b => (a, b)) 10 10 ("I") 1 1
          ("#fff") ("#000") 0 1 0 (9 / 10) =
        Except.error PyErr.zeroDivision := by
  have hbs : base_spacing 1 1 (9 / 10) = 0 := by
    rw [base_spacing, spacing_factor_saturated (by norm_num)]
    apply floorQ_eq <;> norm_num
  refine ⟨hbs, by norm_num, by norm_num, ?_⟩
  rw [error_iff]
  exact hbs

/-- Claim C3 (corrected) — amended: for every glyph tile whose larger
dimension is at least `2` pixels and for every density whatsoever, the
computed spacing is an integer `≥ 1`, and consequently the divisions of lines
302 and 315 never divide by zero: the run completes normally. -/
theorem c3_spacing_positive_for_real_tiles (parse : String → Option RGBA)
    (rot : ℕ → ℕ → ℕ × ℕ) (W H : ℕ) (text : String) (tW tH : ℕ)
    (fc oc : String) (ow : ℕ) (c s d : ℚ)
    (hmax : 2 ≤ max (tW + ow * 2 * 2) (tH + ow * 2 * 2)) :
    1 ≤ base_spacing (tW + ow * 2 * 2) (tH + ow * 2 * 2) d ∧
      isOkResult (create_photo_text_watermark parse rot W H text tW tH fc oc ow c s d) =
        true := by
  have h := base_spacing_ge_one (tW + ow * 2 * 2) (tH + ow * 2 * 2) d hmax
  refine ⟨h, ?_⟩
  rw [isOkResult_iff]
  omega

/-- Witness for the amended C3 at a concrete input: text box 5×3, no outline,
density 1/2. -/
theorem c3_spacing_positive_for_real_tiles_witness :
    2 ≤ max (5 + 0 * 2 * 2) (3 + 0 * 2 * 2) ∧
      1 ≤ base_spacing (5 + 0 * 2 * 2) (3 + 0 * 2 * 2) (1 / 2) ∧
      isOkResult (create_photo_text_watermark (fun _ => none) (fun a b => (a, b)) 8 6
        ("S") 5 3 ("#fff") ("#000") 0 1 0 (1 / 2)) = true := by
  refine ⟨by omega, ?_, ?_⟩
  · exact (c3_spacing_positive_for_real_tiles (fun _ => none) (fun a b => (a, b)) 8 6
      ("S") 5 3 ("#fff") ("#000") 0 1 0 (1 / 2) (by omega)).1
  · exact (c3_spacing_positive_for_real_tiles (fun _ => none) (fun a b => (a, b)) 8 6
      ("S") 5 3 ("#fff") ("#000") 0 1 0 (1 / 2) (by omega)).2

/-- Claim C5 (corrected) — counterexample: at density `2.0` (outside `(0, 1]`)
the run completes normally and returns a raster, and with canvas width `0`
(non-positive) it also completes normally: no validation error is raised
before rendering, contradicting the claim that such inputs fail fatally with
a validation error and produce no raster. -/
theorem c5_counterexample :
    isOkResult (create_photo_text_watermark (fun _ => none) (fun a b => (a, b)) 8 6
        ("S") 5 3 ("#fff") ("#000") 0 1 0 2) = true ∧
      isOkResult (create_photo_text_watermark (fun _ => none) (fun a b => (a, b)) 0 6
        ("S") 5 3 ("#fff") ("#000") 0 1 0 (1 / 2)) = true := by
  constructor
  · rw [isOkResult_iff]
    have h := base_spacing_ge_one (5 + 0 * 2 * 2) (3 + 0 * 2 * 2) 2 (by omega)
    omega
  · rw [isOkResult_iff]
    have h := base_spacing_ge_one (5 + 0 * 2 * 2) (3 + 0 * 2 * 2) (1 / 2) (by omega)
    omega

/-- Claim C5 (corrected) — amended: the source performs no parameter
validation at all.  For any density — in particular any density outside
`(0, 1]` — and any canvas dimensions including `0`, the run completes
normally whenever the glyph tile's larger dimension is at least `2`; a
density above `1` is silently absorbed by the clamp of line 275, making the
output identical to the output at density `0.9`. -/
theorem c5_no_validation (parse : String → Option RGBA) (rot : ℕ → ℕ → ℕ × ℕ)
    (W H : ℕ) (text : String) (tW tH : ℕ) (fc oc : String) (ow : ℕ)
    (c s d : ℚ) (_hout : d ≤ 0 ∨ 1 < d)
    (hmax : 2 ≤ max (tW + ow * 2 * 2) (tH + ow * 2 * 2)) :
    isOkResult (create_photo_text_watermark parse rot W H text tW tH fc oc ow c s d) =
        true ∧
      (1 < d →
        create_photo_text_watermark parse rot W H text tW tH fc oc ow c s d =
          create_photo_text_watermark parse rot W H text tW tH fc oc ow c s (9 / 10)) := by
  constructor
  · rw [isOkResult_iff]
    have h := base_spacing_ge_one (tW + ow * 2 * 2) (tH + ow * 2 * 2) d hmax
    omega
  · intro hd
    have e : spacing_factor d = spacing_factor (9 / 10) := by
      rw [spacing_factor_saturated (by linarith), spacing_factor_saturated (by norm_num)]
    simp only [create_photo_text_watermark, base_spacing, e]

/-- Witness for the amended C5 at a concrete input: density 2, canvas 8×6,
text box 5×3, no outline. -/
theorem c5_no_validation_witness :
    ((2 : ℚ) ≤ 0 ∨ (1 : ℚ) < 2) ∧ 2 ≤ max (5 + 0 * 2 * 2) (3 + 0 * 2 * 2) ∧
      isOkResult (create_photo_text_watermark (fun _ => none) (fun a b => (a, b)) 8 6
        ("S") 5 3 ("#fff") ("#000") 0 1 0 2) = true ∧
      create_photo_text_watermark (fun _ => none) (fun a b => (a, b)) 8 6
          ("S") 5 3 ("#fff") ("#000") 0 1 0 2 =
        create_photo_text_watermark (fun _ => none) (fun a b => (a, b)) 8 6
          ("S") 5 3 ("#fff") ("#000") 0 1 0 (9 / 10) := by
  have h := c5_no_validation (fun _ => none) (fun a b => (a, b)) 8 6 ("S") 5 3
    ("#fff") ("#000") 0 1 0 2 (Or.inr (by norm_num)) (by omega)
  exact ⟨Or.inr (by norm_num), by omega, h.1, h.2 (by norm_num)⟩

/-- Claim C4 (corrected) — counterexample.  First part: for densities
`d₁ = 0.85 < d₂ = 0.9`, both in `[0.2, 0.9]`, the spacing factors are both
clamped to `0.2` and the computed spacings are equal, so the spacing at `d₂`
is not strictly smaller.  Second part: for the canvas `29×20`, glyph tile
`5×3`, rotated tile `6×6` and direction cosines `(20/29, -21/29)` (a genuine
unit direction), raising the density from `0.36` to `0.37` shrinks the
spacing from `8` to `7` yet the number of stamped tiles falls from `26` to
`25` — the stamped-tile count is not monotone in density. -/
theorem c4_counterexample :
    ((17 / 20 : ℚ) < 9 / 10 ∧ (1 / 5 : ℚ) ≤ 17 / 20 ∧
        base_spacing 5 3 (17 / 20) = base_spacing 5 3 (9 / 10)) ∧
      ((9 / 25 : ℚ) < 37 / 100 ∧ (1 / 5 : ℚ) ≤ 9 / 25 ∧ (37 / 100 : ℚ) ≤ 9 / 10 ∧
        stampTally (create_photo_text_watermark (fun _ => none) (fun _ _ => (6, 6))
          29 20 ("S") 5 3 ("#fff") ("#000") 0 (20 / 29) (-21 / 29) (9 / 25)) = 26 ∧
        stampTally (create_photo_text_watermark (fun _ => none) (fun _ _ => (6, 6))
          29 20 ("S") 5 3 ("#fff") ("#000") 0 (20 / 29) (-21 / 29) (37 / 100)) = 25) := by
  have hs35 : Nat.sqrt (29 ^ 2 + 20 ^ 2) = 35 := natSqrt_eq (by norm_num) (by norm_num)
  have hs105 : Nat.sqrt (9 * (29 ^ 2 + 20 ^ 2)) = 105 :=
    natSqrt_eq (by norm_num) (by norm_num)
  refine ⟨⟨by norm_num, by norm_num, ?_⟩, by norm_num, by norm_num, by norm_num, ?_, ?_⟩
  · rw [base_spacing, base_spacing, spacing_factor_saturated (by norm_num),
      spacing_factor_saturated (by norm_num)]
  · have hsp : base_spacing (5 + 0 * 2 * 2) (3 + 0 * 2 * 2) (9 / 25) = 8 := by
      show base_spacing 5 3 (9 / 25) = 8
      have hf : spacing_factor (9 / 25) = 16 / 25 := by
        rw [spacing_factor, show (1 : ℚ) - 9 / 25 = 16 / 25 by norm_num,
          min_eq_right (by norm_num), max_eq_right (by norm_num)]
      rw [base_spacing, hf]
      exact floorQ_eq (by norm_num) (by norm_num)
    have hdx : truncQ ((20 / 29 : ℚ) * ((8 : ℤ) : ℚ)) = 5 :=
      truncQ_of_nonneg (by norm_num) (by norm_num) (by norm_num)
    have hdy : truncQ ((-21 / 29 : ℚ) * ((8 : ℤ) : ℚ)) = -5 :=
      truncQ_of_neg (by norm_num) (by norm_num) (by norm_num)
    have hpdx : truncQ (-(-21 / 29 : ℚ) * ((8 : ℤ) : ℚ)) = 5 :=
      truncQ_of_nonneg (by norm_num) (by norm_num) (by norm_num)
    rw [create_photo_cases, hsp, if_neg (by norm_num : ¬((8 : ℤ) = 0)), hdx, hdy, hpdx,
      hs35, hs105]
    simp only [stampTally]
    decide
  · have hsp : base_spacing (5 + 0 * 2 * 2) (3 + 0 * 2 * 2) (37 / 100) = 7 := by
      show base_spacing 5 3 (37 / 100) = 7
      have hf : spacing_factor (37 / 100) = 63 / 100 := by
        rw [spacing_factor, show (1 : ℚ) - 37 / 100 = 63 / 100 by norm_num,
          min_eq_right (by norm_num), max_eq_right (by norm_num)]
      rw [base_spacing, hf]
      exact floorQ_eq (by norm_num) (by norm_num)
    have hdx : truncQ ((20 / 29 : ℚ) * ((7 : ℤ) : ℚ)) = 4 :=
      truncQ_of_nonneg (by norm_num) (by norm_num) (by norm_num)
    have hdy : truncQ ((-21 / 29 : ℚ) * ((7 : ℤ) : ℚ)) = -5 :=
      truncQ_of_neg (by norm_num) (by norm_num) (by norm_num)
    have hpdx : truncQ (-(-21 / 29 : ℚ) * ((7 : ℤ) : ℚ)) = 5 :=
      truncQ_of_nonneg (by norm_num) (by norm_num) (by norm_num)
    rw [create_photo_cases, hsp, if_neg (by norm_num : ¬((7 : ℤ) = 0)), hdx, hdy, hpdx,
      hs35, hs105]
    simp only [stampTally]
    decide

/-- Claim C4 (corrected) — amended: for a fixed glyph tile, the computed
spacing is weakly decreasing in density: for any densities `d₁ ≤ d₂` (in
particular any pair in `[0.2, 0.9]`) the spacing at `d₂` is less than or
equal to the spacing at `d₁`.  Strict decrease fails (the clamp saturates at
densities ≥ 0.8 and the `int()` truncation can collapse nearby densities),
and the stamped-tile count is not monotone, as the counterexample shows. -/
theorem c4_spacing_weakly_decreasing (tw th : ℕ) {d₁ d₂ : ℚ}
    (_h1 : 1 / 5 ≤ d₁) (h12 : d₁ ≤ d₂) (_h2 : d₂ ≤ 9 / 10) :
    base_spacing tw th d₂ ≤ base_spacing tw th d₁ :=
  base_spacing_anti tw th h12

/-- Witness for the amended C4 at a concrete input: tile 5×3, densities 0.36
and 0.37. -/
theorem c4_spacing_weakly_decreasing_witness :
    ((1 / 5 : ℚ) ≤ 9 / 25 ∧ (9 / 25 : ℚ) ≤ 37 / 100 ∧ (37 / 100 : ℚ) ≤ 9 / 10) ∧
      base_spacing 5 3 (37 / 100) ≤ base_spacing 5 3 (9 / 25) :=
  ⟨⟨by norm_num, by norm_num, by norm_num⟩,
    c4_spacing_weakly_decreasing 5 3 (by norm_num) (by norm_num) (by norm_num)⟩

/-- Claim C6 (confirmed): for unparseable fill and outline color strings,
tile creation does not abort: the documented fallback colors (opaque white
fill, opaque black outline) are substituted, warnings are surfaced for both,
and the produced tile is identical to the tile produced when strings parsing
to exactly those fallback colors are given directly (which produces no
warnings). -/
theorem c6_color_fallback (parse : String → Option RGBA) (text : String)
    (tW tH : ℕ) (fc oc fc' oc' : String) (ow : ℕ)
    (hfc : parse fc = none) (hoc : parse oc = none)
    (hfc' : parse fc' = some fallbackFill) (hoc' : parse oc' = some fallbackOutline) :
    (create_single_text_watermark parse text tW tH fc oc ow).1 =
        (create_single_text_watermark parse text tW tH fc' oc' ow).1 ∧
      (create_single_text_watermark parse text tW tH fc oc ow).2 =
        [Warn.invalidFontColor fc, Warn.invalidOutlineColor oc] ∧
      (create_single_text_watermark parse text tW tH fc' oc' ow).2 = [] := by
  refine ⟨?_, ?_, ?_⟩ <;>
    simp [create_single_text_watermark, hfc, hoc, hfc', hoc']

/-- Witness for C6 at concrete inputs: a parser that recognizes only the
names of the two fallback colors, applied to two unparseable strings. -/
theorem c6_color_fallback_witness :
    ((fun t : String => if t = ("white") then some fallbackFill
        else if t = ("black") then some fallbackOutline else none) ("bad1") = none) ∧
      (create_single_text_watermark
          (fun t => if t = ("white") then some fallbackFill
            else if t = ("black") then some fallbackOutline else none)
          ("S") 5 3 ("bad1") ("bad2") 1).1 =
        (create_single_text_watermark
          (fun t => if t = ("white") then some fallbackFill
            else if t = ("black") then some fallbackOutline else none)
          ("S") 5 3 ("white") ("black") 1).1 ∧
      (create_single_text_watermark
          (fun t => if t = ("white") then some fallbackFill
            else if t = ("black") then some fallbackOutline else none)
          ("S") 5 3 ("bad1") ("bad2") 1).2 =
        [Warn.invalidFontColor ("bad1"), Warn.invalidOutlineColor ("bad2")] ∧
      (create_single_text_watermark
          (fun t => if t = ("white") then some fallbackFill
            else if t = ("black") then some fallbackOutline else none)
          ("S") 5 3 ("white") ("black") 1).2 = [] := by
  have h := c6_color_fallback
    (fun t => if t = ("white") then some fallbackFill
      else if t = ("black") then some fallbackOutline else none)
    ("S") 5 3 ("bad1") ("bad2") ("white") ("black") 1
    (by decide) (by decide) (by decide) (by decide)
  exact ⟨by decide, h.1, h.2.1, h.2.2⟩

/-- Membership in the offset list of the outline loops: exactly the integers
between `-w` and `w`. -/
lemma mem_offsetRange {w : ℕ} {a : ℤ} : a ∈ offsetRange w ↔ -(w : ℤ) ≤ a ∧ a ≤ w := by
  simp only [offsetRange, List.mem_map, List.mem_range]
  constructor
  · rintro ⟨k, hk, rfl⟩
    omega
  · intro h
    exact ⟨(a + w).toNat, by omega, by omega⟩

/-- Membership in the outline offset-pair list: exactly the integer pairs of
the square `[-w, w]²` with `(0, 0)` removed. -/
lemma mem_outlineOffsets {w : ℕ} {p : ℤ × ℤ} :
    p ∈ outlineOffsets w ↔
      (-(w : ℤ) ≤ p.1 ∧ p.1 ≤ w) ∧ (-(w : ℤ) ≤ p.2 ∧ p.2 ≤ w) ∧ p ≠ (0, 0) := by
  simp only [outlineOffsets, List.mem_filter, List.mem_flatMap, List.mem_map,
    decide_eq_true_eq]
  constructor
  · rintro ⟨⟨ox, hox, oy, hoy, rfl⟩, hne⟩
    exact ⟨mem_offsetRange.mp hox, mem_offsetRange.mp hoy, hne⟩
  · rintro ⟨h1, h2, hne⟩
    exact ⟨⟨p.1, mem_offsetRange.mpr h1, p.2, mem_offsetRange.mpr h2, rfl⟩, hne⟩

lemma nodup_offsetRange (w : ℕ) : (offsetRange w).Nodup := by
  rw [offsetRange]
  apply List.Nodup.map ?_ (List.nodup_range _)
  intro a b hab
  dsimp only at hab
  omega

lemma length_offsetRange (w : ℕ) : (offsetRange w).length = 2 * w + 1 := by
  simp [offsetRange]

lemma nodup_offsetPairs (w : ℕ) :
    ((offsetRange w).flatMap
      (fun ox => (offsetRange w).map (fun oy => (ox, oy)))).Nodup := by
  rw [List.nodup_flatMap]
  constructor
  · intro ox _
    apply List.Nodup.map ?_ (nodup_offsetRange w)
    intro a b hab
    injection hab
  · have h := nodup_offsetRange w
    refine List.Pairwise.imp ?_ h
    intro a b hne p hpa hpb
    simp only [List.mem_map] at hpa hpb
    obtain ⟨x, _, rfl⟩ := hpa
    obtain ⟨y, _, he⟩ := hpb
    exact hne (congrArg Prod.fst he).symm

lemma length_offsetPairs (w : ℕ) :
    ((offsetRange w).flatMap
      (fun ox => (offsetRange w).map (fun oy => (ox, oy)))).length =
      (2 * w + 1) * (2 * w + 1) := by
  rw [List.length_flatMap]
  have hmap : (offsetRange w).map (List.length ∘ fun ox =>
      (offsetRange w).map (fun oy => (ox, oy))) =
      (offsetRange w).map (fun _ => 2 * w + 1) := by
    apply List.map_congr_left
    intro a _
    simp [length_offsetRange]
  rw [hmap]
  rw [List.map_const', List.sum_replicate, smul_eq_mul, length_offsetRange]

lemma nodup_outlineOffsets (w : ℕ) : (outlineOffsets w).Nodup :=
  (nodup_offsetPairs w).filter _

/-- Removing one occurrence of a present element from a duplicate-free list
by filtering shortens it by exactly one. -/
lemma length_filter_ne {α : Type} [DecidableEq α] {a : α} :
    ∀ {l : List α}, l.Nodup → a ∈ l →
      (l.filter (fun x => x ≠ a)).length + 1 = l.length := by
  intro l
  induction l with
  | nil => intro _ h; cases h
  | cons b t ih =>
    intro hnd hmem
    rw [List.nodup_cons] at hnd
    by_cases hb : b = a
    · subst hb
      rw [List.filter_cons_of_neg (by simp)]
      rw [List.filter_eq_self.mpr (fun x hx => by
        simp only [decide_eq_true_eq]
        intro hxa
        exact hnd.1 (hxa ▸ hx))]
      simp
    · rw [List.filter_cons_of_pos (by simp [hb])]
      have hat : a ∈ t := by
        rcases List.mem_cons.mp hmem with h | h
        · exact absurd h.symm hb
        · exact h
      have h := ih hnd.2 hat
      simp only [List.length_cons]
      omega

/-- The outline loops visit exactly `(2w+1)² - 1` offset pairs. -/
lemma length_outlineOffsets (w : ℕ) :
    (outlineOffsets w).length = (2 * w + 1) ^ 2 - 1 := by
  have hmem : ((0 : ℤ), (0 : ℤ)) ∈ (offsetRange w).flatMap
      (fun ox => (offsetRange w).map (fun oy => (ox, oy))) := by
    rw [List.mem_flatMap]
    refine ⟨0, mem_offsetRange.mpr ⟨by omega, by omega⟩, ?_⟩
    exact List.mem_map.mpr ⟨0, mem_offsetRange.mpr ⟨by omega, by omega⟩, rfl⟩
  have h := length_filter_ne (nodup_offsetPairs w) hmem
  rw [length_offsetPairs] at h
  rw [outlineOffsets, pow_two]
  omega

/-- Claim C7 (confirmed): the glyph tile is allocated with exactly
`(text_width + 4·outline_width, text_height + 4·outline_width)` pixels —
padding `2·outline_width` on each side — and every text draw (each outline
draw at an offset in `[-w, w]²` as well as the fill draw) places the measured
text box entirely inside the tile bounds. -/
theorem c7_tile_dims_and_containment (parse : String → Option RGBA)
    (text : String) (tW tH : ℕ) (fc oc : String) (ow : ℕ) :
    (create_single_text_watermark parse text tW tH fc oc ow).1.width = tW + 4 * ow ∧
      (create_single_text_watermark parse text tW tH fc oc ow).1.height = tH + 4 * ow ∧
      ∀ op ∈ (create_single_text_watermark parse text tW tH fc oc ow).1.ops,
        0 ≤ op.x ∧ op.x + tW ≤ ((tW + 4 * ow : ℕ) : ℤ) ∧
          0 ≤ op.y ∧ op.y + tH ≤ ((tH + 4 * ow : ℕ) : ℤ) := by
  refine ⟨by rw [single_width]; omega, by rw [single_height]; omega, ?_⟩
  intro op hop
  simp only [create_single_text_watermark] at hop
  rcases List.mem_append.mp hop with hmem | hmem
  · by_cases how : 0 < ow
    · rw [if_pos how] at hmem
      obtain ⟨off, hoff, rfl⟩ := List.mem_map.mp hmem
      obtain ⟨⟨h1, h2⟩, ⟨h3, h4⟩, _⟩ := mem_outlineOffsets.mp hoff
      refine ⟨?_, ?_, ?_, ?_⟩ <;> (simp only; push_cast; omega)
    · rw [if_neg how] at hmem
      exact absurd hmem (List.not_mem_nil _)
  · rw [List.mem_singleton] at hmem
    subst hmem
    refine ⟨?_, ?_, ?_, ?_⟩ <;> (simp only; push_cast; omega)

/-- Witness for C7 at a concrete input (text box 3×2, outline width 1),
specialized to the fill draw at the padding origin `(2, 2)`. -/
theorem c7_tile_dims_and_containment_witness :
    (create_single_text_watermark (fun _ => none) ("S") 3 2 ("#fff") ("#000") 1).1.width =
        3 + 4 * 1 ∧
      (0 ≤ (2 : ℤ) ∧ (2 : ℤ) + 3 ≤ ((3 + 4 * 1 : ℕ) : ℤ) ∧
        0 ≤ (2 : ℤ) ∧ (2 : ℤ) + 2 ≤ ((2 + 4 * 1 : ℕ) : ℤ)) := by
  have h := c7_tile_dims_and_containment (fun _ => none) ("S") 3 2 ("#fff") ("#000") 1
  exact ⟨h.1, h.2.2 ⟨2, 2, ("S"), fallbackFill⟩ (by decide)⟩

/-- Claim C8 (confirmed): with `outline_width = 0` the outline pass is
skipped entirely and the tile receives exactly one draw, the fill draw at
the (zero) padding origin; with `outline_width = w > 0` the tile receives
the outline draws first — one per offset pair of `[-w, w]²` excluding
`(0, 0)`, i.e. exactly `(2w+1)² - 1` of them, all in the outline color —
followed by the single fill draw on top. -/
theorem c8_draw_counts (parse : String → Option RGBA) (text : String)
    (tW tH : ℕ) (fc oc : String) (w : ℕ) :
    ((create_single_text_watermark parse text tW tH fc oc 0).1.ops =
        [⟨0, 0, text, (parse fc).getD fallbackFill⟩]) ∧
      (0 < w →
        (create_single_text_watermark parse text tW tH fc oc w).1.ops =
            (outlineOffsets w).map (fun off =>
              ⟨((w * 2 : ℕ) : ℤ) + off.1, ((w * 2 : ℕ) : ℤ) + off.2, text,
                (parse oc).getD fallbackOutline⟩) ++
              [⟨((w * 2 : ℕ) : ℤ), ((w * 2 : ℕ) : ℤ), text, (parse fc).getD fallbackFill⟩] ∧
          (outlineOffsets w).length = (2 * w + 1) ^ 2 - 1 ∧
          (outlineOffsets w).Nodup ∧
          ∀ p : ℤ × ℤ, p ∈ outlineOffsets w ↔
            (-(w : ℤ) ≤ p.1 ∧ p.1 ≤ w) ∧ (-(w : ℤ) ≤ p.2 ∧ p.2 ≤ w) ∧ p ≠ (0, 0)) := by
  refine ⟨?_, fun hw => ⟨?_, length_outlineOffsets w, nodup_outlineOffsets w,
    fun p => mem_outlineOffsets⟩⟩
  · simp [create_single_text_watermark]
  · simp [create_single_text_watermark, hw]

/-- Witness for C8 at a concrete input: outline width 1 gives the single-draw
tile at width 0 and exactly 8 offset draws at width 1. -/
theorem c8_draw_counts_witness :
    (create_single_text_watermark (fun _ => none) ("S") 3 2 ("#fff") ("#000") 0).1.ops =
        [⟨0, 0, ("S"), fallbackFill⟩] ∧
      (outlineOffsets 1).length = (2 * 1 + 1) ^ 2 - 1 := by
  refine ⟨(c8_draw_counts (fun _ => none) ("S") 3 2 ("#fff") ("#000") 1).1, ?_⟩
  exact ((c8_draw_counts (fun _ => none) ("S") 3 2 ("#fff") ("#000") 1).2 (by omega)).2.1

/-- Claim C9 (confirmed): the generation is deterministic.  The embedded
function is a pure function of its inputs, and its only contact with the
outside world is through the oracles for color parsing and rotated-tile
measurement; whenever two runs share the listed inputs and their oracles
answer identically on the queries actually made (the two color strings, and
the rotation of the tile actually built), the complete output descriptions —
hence the output rasters — are identical. -/
theorem c9_deterministic (parse₁ parse₂ : String → Option RGBA)
    (rot₁ rot₂ : ℕ → ℕ → ℕ × ℕ) (W H : ℕ) (text : String) (tW tH : ℕ)
    (fc oc : String) (ow : ℕ) (c s d : ℚ)
    (hfc : parse₁ fc = parse₂ fc) (hoc : parse₁ oc = parse₂ oc)
    (hrot : rot₁ (tW + ow * 2 * 2) (tH + ow * 2 * 2) =
      rot₂ (tW + ow * 2 * 2) (tH + ow * 2 * 2)) :
    create_photo_text_watermark parse₁ rot₁ W H text tW tH fc oc ow c s d =
      create_photo_text_watermark parse₂ rot₂ W H text tW tH fc oc ow c s d := by
  have hsingle : create_single_text_watermark parse₁ text tW tH fc oc ow =
      create_single_text_watermark parse₂ text tW tH fc oc ow := by
    simp only [create_single_text_watermark, hfc, hoc]
  rw [create_photo_cases, create_photo_cases, hsingle, hrot]

/-- Witness for C9 at concrete inputs: two extensionally different oracle
pairs that agree on the queried values give equal outputs. -/
theorem c9_deterministic_witness :
    ((fun _ : String => (none : Option RGBA)) ("#fff") =
        (fun t : String => if t = ("z") then some fallbackFill else none) ("#fff")) ∧
      create_photo_text_watermark (fun _ => none) (fun a b => (a, b)) 8 6 ("S") 5 3
          ("#fff") ("#000") 0 1 0 (1 / 2) =
        create_photo_text_watermark
          (fun t => if t = ("z") then some fallbackFill else none)
          (fun a b => if a = 100 then (0, 0) else (a, b)) 8 6 ("S") 5 3
          ("#fff") ("#000") 0 1 0 (1 / 2) := by
  refine ⟨by decide, ?_⟩
  exact c9_deterministic (fun _ => none)
    (fun t => if t = ("z") then some fallbackFill else none)
    (fun a b => (a, b)) (fun a b => if a = 100 then (0, 0) else (a, b))
    8 6 ("S") 5 3 ("#fff") ("#000") 0 1 0 (1 / 2) (by decide) (by decide) (by decide)

/-- Claim C10 (confirmed): density saturates at `0.8`.  For any two densities
in `[0.8, 1]` (indeed, for any two densities `≥ 0.8`) and all other inputs
equal, the clamp of line 275 collapses the spacing factor of both runs to
exactly `0.2`, every downstream quantity agrees, and the outputs are
identical. -/
theorem c10_density_saturates (parse : String → Option RGBA)
    (rot : ℕ → ℕ → ℕ × ℕ) (W H : ℕ) (text : String) (tW tH : ℕ)
    (fc oc : String) (ow : ℕ) (c s : ℚ) {d₁ d₂ : ℚ}
    (h₁ : 4 / 5 ≤ d₁) (_h₁' : d₁ ≤ 1) (h₂ : 4 / 5 ≤ d₂) (_h₂' : d₂ ≤ 1) :
    create_photo_text_watermark parse rot W H text tW tH fc oc ow c s d₁ =
      create_photo_text_watermark parse rot W H text tW tH fc oc ow c s d₂ := by
  have e : spacing_factor d₁ = spacing_factor d₂ := by
    rw [spacing_factor_saturated h₁, spacing_factor_saturated h₂]
  simp only [create_photo_text_watermark, base_spacing, e]

/-- Witness for C10 at concrete inputs: densities 0.85 and 0.9 give equal
outputs. -/
theorem c10_density_saturates_witness :
    ((4 / 5 : ℚ) ≤ 17 / 20 ∧ (17 / 20 : ℚ) ≤ 1 ∧ (4 / 5 : ℚ) ≤ 9 / 10 ∧
        (9 / 10 : ℚ) ≤ 1) ∧
      create_photo_text_watermark (fun _ => none) (fun a b => (a, b)) 8 6 ("S") 5 3
          ("#fff") ("#000") 0 1 0 (17 / 20) =
        create_photo_text_watermark (fun _ => none) (fun a b => (a, b)) 8 6 ("S") 5 3
          ("#fff") ("#000") 0 1 0 (9 / 10) :=
  ⟨⟨by norm_num, by norm_num, by norm_num, by norm_num⟩,
    c10_density_saturates (fun _ => none) (fun a b => (a, b)) 8 6 ("S") 5 3
      ("#fff") ("#000") 0 1 0 (by norm_num) (by norm_num) (by norm_num) (by norm_num)⟩

end Watermark
